import Mathlib

/-!
Verification of the wash-trading detector core (`wash_detector.py`).

The detector's core is a set of pure functions over already-acquired market
data: a Benford first-digit test over trade sizes, a buy/sell symmetry test,
a volume-to-depth ratio classification, a weighted manipulation scorer capped
at 1.0, a three-level label, and an optional score correlator.  We embed each
of these shallowly over `ℚ` (the Python source computes with floats; all the
constants involved are decimal and the classification logic is pure
comparison, so exact rational arithmetic is the faithful idealisation) and
prove the specified properties.

External collaborators (the `ccxt` exchange client, `scipy.stats.chisquare`,
the remote credibility-score API) sit outside the core; they are modelled as
explicit inputs: acquisition results as `Except` values, the chi-squared
routine as an oracle parameter, the credibility score as an `Option`.
-/

/-- Result taxonomy shared by the three tests (`PASS`/`FAIL`/`WARNING`
substantive verdicts, `INSUFFICIENT_DATA` for degenerate input, `ERROR` for
acquisition failure). -/
inductive TestResult
  | PASS
  | FAIL
  | WARNING
  | INSUFFICIENT_DATA
  | ERROR
deriving DecidableEq

/-- Trade side as recorded by the acquisition layer; a missing or
unrecognised `side` field is `unknown`. -/
inductive Side
  | buy
  | sell
  | unknown
deriving DecidableEq

/-- One executed trade: `amount` (base-asset quantity), `side`, and a
millisecond timestamp (unused by the tests). -/
structure Trade where
  amount : ℚ
  side : Side
  timestamp : ℤ
deriving DecidableEq

/-- Outcome of the Benford first-digit test
(`{"chi_squared": ..., "p_value": ..., "result": ...}`). -/
structure DigitOutcome where
  chi_squared : ℚ
  p_value : ℚ
  result : TestResult
deriving DecidableEq

/-- Outcome of the buy/sell symmetry test
(`{"buy_pct": ..., "sell_pct": ..., "result": ...}`). -/
structure SymmetryOutcome where
  buy_pct : ℚ
  sell_pct : ℚ
  result : TestResult
deriving DecidableEq

/-- Outcome of the volume/depth ratio test
(`{"ratio": ..., "benchmark": "3-5x", "result": ...}`). -/
structure VolumeDepthOutcome where
  ratio : ℚ
  benchmark : String
  result : TestResult
deriving DecidableEq

/-- Point-in-time order book: `bids` and `asks` are (price, size) pairs,
best first; the acquisition layer fetches at most the top 20 levels per side
(`fetch_order_book(pair, limit=20)`), so the lists here are what the code
sums over. -/
structure OrderBookSnapshot where
  bids : List (ℚ × ℚ)
  asks : List (ℚ × ℚ)
deriving DecidableEq

/-- Ticker: the 24-hour quote volume (`ticker.get('quoteVolume', 0)`). -/
structure TickerSnapshot where
  quoteVolume : ℚ
deriving DecidableEq

/-- Manipulation category label. -/
inductive Label
  | LOW
  | MEDIUM
  | HIGH
deriving DecidableEq

/-- Leading significant digit of a rational trade size: the `d` with
`d * 10^k ≤ q < (d+1) * 10^k`.  Models
`int(str(float(amt)).lstrip('0.')[0])` in `benford_law_test` (line 94),
which reads the first significant decimal digit of a positive amount;
non-positive input (never reached, upstream filter) yields 0. -/
def leadingDigit (q : ℚ) : ℕ :=
  if q ≤ 0 then 0
  else if q.den ≤ q.num.toNat then
    q.num.toNat / (q.den * 10 ^ Nat.log 10 (q.num.toNat / q.den))
  else
    q.num.toNat * 10 ^ Nat.clog 10 ((q.den + q.num.toNat - 1) / q.num.toNat) / q.den

/-- First-digit extraction of `benford_law_test` (lines 93–95): keep the
strictly positive amounts, take each one's leading significant digit, and
keep only digits 1–9. -/
def firstDigits (trades : List Trade) : List ℕ :=
  ((((trades.map fun t => t.amount).filter fun amt => decide (0 < amt)).map
      fun amt => leadingDigit amt).filter fun d => decide (1 ≤ d) && decide (d ≤ 9))

/-- Benford first-digit test (`benford_law_test`, lines 77–118).  With no
valid first digits the test returns `INSUFFICIENT_DATA` with statistic 0 and
p-value 1.  Otherwise it counts observed frequencies of digits 1..9 and runs
a chi-squared goodness-of-fit test against the Benford expectation
`n * log10(1 + 1/d)`; that library routine (`scipy.stats.chisquare`, whose
expected frequencies are irrational) is external to the repository and is
modelled as the oracle `chisquare`, mapping the observed counts to the
(statistic, p-value) pair.  The verdict is `FAIL` iff p-value < 0.05. -/
def benford_law_test (chisquare : List ℕ → ℚ × ℚ) (trades : List Trade) :
    DigitOutcome :=
  if firstDigits trades = [] then
    ⟨0, 1, TestResult.INSUFFICIENT_DATA⟩
  else
    let observed_freq := (List.range' 1 9).map fun d => (firstDigits trades).count d
    let cp := chisquare observed_freq
    ⟨cp.1, cp.2, if cp.2 < 1 / 20 then TestResult.FAIL else TestResult.PASS⟩

/-- Count of trades whose `side` is `buy` (`buy_sell_symmetry_test`,
line 137). -/
def buy_count (trades : List Trade) : ℕ :=
  trades.countP fun t => t.side == Side.buy

/-- Count of trades whose `side` is `sell` (line 138). -/
def sell_count (trades : List Trade) : ℕ :=
  trades.countP fun t => t.side == Side.sell

/-- Buy/sell symmetry test (`buy_sell_symmetry_test`, lines 121–154).
Zero buy+sell trades give `INSUFFICIENT_DATA`; otherwise `PASS` iff both
side percentages lie in [45, 55], else `FAIL`. -/
def buy_sell_symmetry_test (trades : List Trade) : SymmetryOutcome :=
  if buy_count trades + sell_count trades = 0 then
    ⟨0, 0, TestResult.INSUFFICIENT_DATA⟩
  else
    let total : ℚ := (buy_count trades : ℚ) + (sell_count trades : ℚ)
    let buy_pct := (buy_count trades : ℚ) / total * 100
    let sell_pct := (sell_count trades : ℚ) / total * 100
    ⟨buy_pct, sell_pct,
      if 45 ≤ buy_pct ∧ buy_pct ≤ 55 ∧ 45 ≤ sell_pct ∧ sell_pct ≤ 55 then
        TestResult.PASS
      else TestResult.FAIL⟩

/-- Total notional book depth (`volume_depth_ratio_test`, lines 183–185):
`Σ bid_size*bid_price + Σ ask_size*ask_price` over the fetched levels. -/
def total_depth (book : OrderBookSnapshot) : ℚ :=
  ((book.bids.map fun bid => bid.2 * bid.1).sum) +
    ((book.asks.map fun ask => ask.2 * ask.1).sum)

/-- Volume/depth ratio test (`volume_depth_ratio_test`, lines 157–210).
The acquisition of ticker and book happens inside a `try` block; a fault
there is caught and surfaced as `ERROR` with ratio 0, so the input is the
acquisition result as an `Except`.  Zero total depth gives
`INSUFFICIENT_DATA`; otherwise the 24h-volume-to-depth ratio is classified
`PASS` (< 3, or 3–10), `WARNING` (10 < ratio ≤ 20), or `FAIL` (above 20). -/
def volume_depth_ratio_test
    (fetched : Except String (TickerSnapshot × OrderBookSnapshot)) :
    VolumeDepthOutcome :=
  match fetched with
  | Except.error _ => ⟨0, "3-5x", TestResult.ERROR⟩
  | Except.ok (ticker, book) =>
    if total_depth book = 0 then ⟨0, "3-5x", TestResult.INSUFFICIENT_DATA⟩
    else
      let ratio := ticker.quoteVolume / total_depth book
      ⟨ratio, "3-5x",
        if ratio < 3 then TestResult.PASS
        else if 3 ≤ ratio ∧ ratio ≤ 10 then TestResult.PASS
        else if 10 < ratio ∧ ratio ≤ 20 then TestResult.WARNING
        else TestResult.FAIL⟩

/-- Benford increment of the scorer (`calculate_manipulation_probability`,
lines 233–238): on `FAIL`, 0.5 when p-value < 0.01 and 0.3 otherwise;
nothing otherwise. -/
def benford_component (benford : DigitOutcome) : ℚ :=
  if benford.result = TestResult.FAIL then
    if benford.p_value < 1 / 100 then 1 / 2 else 3 / 10
  else 0

/-- Symmetry increment of the scorer (lines 241–249): on `FAIL`, graduated
by the larger deviation of the two side percentages from 50. -/
def symmetry_component (symmetry : SymmetryOutcome) : ℚ :=
  if symmetry.result = TestResult.FAIL then
    if max |symmetry.buy_pct - 50| |symmetry.sell_pct - 50| > 15 then 3 / 10
    else if max |symmetry.buy_pct - 50| |symmetry.sell_pct - 50| > 10 then 1 / 5
    else 1 / 10
  else 0

/-- Volume/depth increment of the scorer (lines 252–255): 0.2 on `FAIL`,
0.1 on `WARNING`, nothing otherwise. -/
def volume_component (volume_depth : VolumeDepthOutcome) : ℚ :=
  if volume_depth.result = TestResult.FAIL then 1 / 5
  else if volume_depth.result = TestResult.WARNING then 1 / 10
  else 0

/-- The scorer's accumulated `score` just before the final cap (lines
230–255): the three increments applied to `score = 0.0` in sequence. -/
def manipulation_score (benford : DigitOutcome) (symmetry : SymmetryOutcome)
    (volume_depth : VolumeDepthOutcome) : ℚ :=
  benford_component benford + symmetry_component symmetry +
    volume_component volume_depth

/-- Manipulation probability (`calculate_manipulation_probability`, lines
213–257): the accumulated score capped by `min(score, 1.0)`. -/
def calculate_manipulation_probability (benford : DigitOutcome)
    (symmetry : SymmetryOutcome) (volume_depth : VolumeDepthOutcome) : ℚ :=
  min (manipulation_score benford symmetry volume_depth) 1

/-- Probability-to-label conversion (`get_manipulation_label`, lines
260–275). -/
def get_manipulation_label (probability : ℚ) : Label :=
  if probability < 3 / 10 then Label.LOW
  else if probability < 3 / 5 then Label.MEDIUM
  else Label.HIGH

/-- Score correlator (`calculate_score_correlation`, lines 305–323):
absent credibility score gives `none`; otherwise the directional agreement
`-1 * (probability - (1 - credibility))`. -/
def calculate_score_correlation (manipulation_prob : ℚ)
    (algohouse_score : Option ℚ) : Option ℚ :=
  match algohouse_score with
  | none => none
  | some s => some (-1 * (manipulation_prob - (1 - s)))

/-- Digit-test contribution as the spec states it: 0.0 for
PASS/INSUFFICIENT_DATA/ERROR; on FAIL, 0.5 when p-value < 0.01 and 0.3
otherwise.  (Claim-side definition, compared with `benford_component`.) -/
def digitContribSpec (o : DigitOutcome) : ℚ :=
  if o.result = TestResult.PASS ∨ o.result = TestResult.INSUFFICIENT_DATA ∨
      o.result = TestResult.ERROR then 0
  else if o.p_value < 1 / 100 then 1 / 2
  else 3 / 10

/-- Symmetry-test contribution as the spec states it: 0.0 unless FAIL; on
FAIL, with `d = max(|buy_pct-50|, |sell_pct-50|)`, 0.3 when `d > 15`, 0.2
when `d > 10`, else 0.1. -/
def symContribSpec (o : SymmetryOutcome) : ℚ :=
  if o.result ≠ TestResult.FAIL then 0
  else if max |o.buy_pct - 50| |o.sell_pct - 50| > 15 then 3 / 10
  else if max |o.buy_pct - 50| |o.sell_pct - 50| > 10 then 1 / 5
  else 1 / 10

/-- Volume/depth-test contribution as the spec states it: 0.0 for
PASS/INSUFFICIENT_DATA/ERROR, 0.1 for WARNING, 0.2 for FAIL. -/
def volContribSpec (o : VolumeDepthOutcome) : ℚ :=
  if o.result = TestResult.PASS ∨ o.result = TestResult.INSUFFICIENT_DATA ∨
      o.result = TestResult.ERROR then 0
  else if o.result = TestResult.WARNING then 1 / 10
  else 1 / 5

/-- The Benford increment is one of 0, 0.3, 0.5. -/
lemma benford_component_tenths (b : DigitOutcome) :
    ∃ j : ℕ, j ≤ 5 ∧ benford_component b = (j : ℚ) / 10 := by
  unfold benford_component
  split_ifs
  · exact ⟨5, by norm_num, by norm_num⟩
  · exact ⟨3, by norm_num, by norm_num⟩
  · exact ⟨0, by norm_num, by norm_num⟩

/-- The symmetry increment is one of 0, 0.1, 0.2, 0.3. -/
lemma symmetry_component_tenths (s : SymmetryOutcome) :
    ∃ j : ℕ, j ≤ 3 ∧ symmetry_component s = (j : ℚ) / 10 := by
  unfold symmetry_component
  split_ifs
  · exact ⟨3, by norm_num, by norm_num⟩
  · exact ⟨2, by norm_num, by norm_num⟩
  · exact ⟨1, by norm_num, by norm_num⟩
  · exact ⟨0, by norm_num, by norm_num⟩

/-- The volume/depth increment is one of 0, 0.1, 0.2. -/
lemma volume_component_tenths (v : VolumeDepthOutcome) :
    ∃ j : ℕ, j ≤ 2 ∧ volume_component v = (j : ℚ) / 10 := by
  unfold volume_component
  split_ifs
  · exact ⟨2, by norm_num, by norm_num⟩
  · exact ⟨1, by norm_num, by norm_num⟩
  · exact ⟨0, by norm_num, by norm_num⟩

/-- The accumulated score is nonnegative. -/
lemma score_nonneg (b : DigitOutcome) (s : SymmetryOutcome) (v : VolumeDepthOutcome) :
    0 ≤ manipulation_score b s v := by
  unfold manipulation_score benford_component symmetry_component volume_component
  split_ifs <;> norm_num

/-- The accumulated score never exceeds 1 even before the cap. -/
lemma score_le_one (b : DigitOutcome) (s : SymmetryOutcome) (v : VolumeDepthOutcome) :
    manipulation_score b s v ≤ 1 := by
  unfold manipulation_score benford_component symmetry_component volume_component
  split_ifs <;> norm_num

/-- The code's Benford increment agrees with the spec's description whenever
the digit outcome carries one of the digit test's own results (it never
produces `WARNING`). -/
lemma benford_component_eq_spec (b : DigitOutcome)
    (hb : b.result ≠ TestResult.WARNING) :
    benford_component b = digitContribSpec b := by
  rcases b with ⟨c, p, r⟩
  cases r <;> simp_all [benford_component, digitContribSpec]

/-- The code's symmetry increment agrees with the spec's description. -/
lemma symmetry_component_eq_spec (s : SymmetryOutcome) :
    symmetry_component s = symContribSpec s := by
  rcases s with ⟨bp, sp, r⟩
  cases r <;> simp [symmetry_component, symContribSpec]

/-- The code's volume/depth increment agrees with the spec's description. -/
lemma volume_component_eq_spec (v : VolumeDepthOutcome) :
    volume_component v = volContribSpec v := by
  rcases v with ⟨r0, bm, r⟩
  cases r <;> simp [volume_component, volContribSpec]

/-- C1: for every triple of test outcomes (each carrying a result its test
can produce, so never `WARNING` for the digit test), the scorer returns
`min` of the sum of the three spec-described contributions and 1.0, and the
probability always lies in [0, 1]. -/
theorem scorer_weighted_sum_C1 (b : DigitOutcome) (s : SymmetryOutcome)
    (v : VolumeDepthOutcome) (hb : b.result ≠ TestResult.WARNING) :
    calculate_manipulation_probability b s v =
      min (digitContribSpec b + symContribSpec s + volContribSpec v) 1 ∧
    0 ≤ calculate_manipulation_probability b s v ∧
    calculate_manipulation_probability b s v ≤ 1 := by
  refine ⟨?_, le_min (score_nonneg b s v) (by norm_num), min_le_right _ _⟩
  unfold calculate_manipulation_probability manipulation_score
  rw [benford_component_eq_spec b hb, symmetry_component_eq_spec s,
    volume_component_eq_spec v]

/-- Witness for C1 at a concrete failing triple. -/
theorem scorer_weighted_sum_C1_witness :
    calculate_manipulation_probability ⟨50, 1 / 1000, TestResult.FAIL⟩
        ⟨70, 30, TestResult.FAIL⟩ ⟨25, "3-5x", TestResult.FAIL⟩ =
      min (digitContribSpec ⟨50, 1 / 1000, TestResult.FAIL⟩ +
        symContribSpec ⟨70, 30, TestResult.FAIL⟩ +
        volContribSpec ⟨25, "3-5x", TestResult.FAIL⟩) 1 ∧
    0 ≤ calculate_manipulation_probability ⟨50, 1 / 1000, TestResult.FAIL⟩
        ⟨70, 30, TestResult.FAIL⟩ ⟨25, "3-5x", TestResult.FAIL⟩ ∧
    calculate_manipulation_probability ⟨50, 1 / 1000, TestResult.FAIL⟩
        ⟨70, 30, TestResult.FAIL⟩ ⟨25, "3-5x", TestResult.FAIL⟩ ≤ 1 :=
  scorer_weighted_sum_C1 ⟨50, 1 / 1000, TestResult.FAIL⟩ ⟨70, 30, TestResult.FAIL⟩
    ⟨25, "3-5x", TestResult.FAIL⟩ (by simp)

/-- C3: the label is `LOW` exactly below 0.3, `MEDIUM` exactly on
[0.3, 0.6), `HIGH` exactly from 0.6 on; in particular 0.3 itself maps to
`MEDIUM` and 0.6 itself to `HIGH`. -/
theorem label_boundaries_C3 (p : ℚ) :
    (get_manipulation_label p = Label.LOW ↔ p < 3 / 10) ∧
    (get_manipulation_label p = Label.MEDIUM ↔ 3 / 10 ≤ p ∧ p < 3 / 5) ∧
    (get_manipulation_label p = Label.HIGH ↔ 3 / 5 ≤ p) ∧
    get_manipulation_label (3 / 10) = Label.MEDIUM ∧
    get_manipulation_label (3 / 5) = Label.HIGH := by
  refine ⟨?_, ?_, ?_, by norm_num [get_manipulation_label],
    by norm_num [get_manipulation_label]⟩
  · unfold get_manipulation_label
    split_ifs with h1 h2
    · simp [h1]
    · simp [h1]
    · simp [h1]
  · unfold get_manipulation_label
    split_ifs with h1 h2
    · simp [not_le.mpr h1]
    · simp [not_lt.mp h1, h2]
    · simp [h2]
  · unfold get_manipulation_label
    split_ifs with h1 h2
    · have h3 : p < 3 / 5 := h1.trans (by norm_num)
      simp [not_le.mpr h3]
    · simp [not_le.mpr h2]
    · simp [not_lt.mp h2]

/-- C7: the scorer is a pure, deterministic function of its three outcomes
(identical inputs give an identical probability and label), and even the
uncapped score never exceeds 1.0. -/
theorem scorer_deterministic_C7 (b b' : DigitOutcome) (s s' : SymmetryOutcome)
    (v v' : VolumeDepthOutcome) (hb : b = b') (hs : s = s') (hv : v = v') :
    calculate_manipulation_probability b s v =
      calculate_manipulation_probability b' s' v' ∧
    get_manipulation_label (calculate_manipulation_probability b s v) =
      get_manipulation_label (calculate_manipulation_probability b' s' v') ∧
    manipulation_score b s v ≤ 1 := by
  subst hb; subst hs; subst hv
  exact ⟨rfl, rfl, score_le_one b s v⟩

/-- Witness for C7 at the all-maximal triple (0.5 + 0.3 + 0.2). -/
theorem scorer_deterministic_C7_witness :
    calculate_manipulation_probability ⟨50, 1 / 1000, TestResult.FAIL⟩
        ⟨70, 30, TestResult.FAIL⟩ ⟨25, "3-5x", TestResult.FAIL⟩ =
      calculate_manipulation_probability ⟨50, 1 / 1000, TestResult.FAIL⟩
        ⟨70, 30, TestResult.FAIL⟩ ⟨25, "3-5x", TestResult.FAIL⟩ ∧
    get_manipulation_label (calculate_manipulation_probability
        ⟨50, 1 / 1000, TestResult.FAIL⟩ ⟨70, 30, TestResult.FAIL⟩
        ⟨25, "3-5x", TestResult.FAIL⟩) =
      get_manipulation_label (calculate_manipulation_probability
        ⟨50, 1 / 1000, TestResult.FAIL⟩ ⟨70, 30, TestResult.FAIL⟩
        ⟨25, "3-5x", TestResult.FAIL⟩) ∧
    manipulation_score ⟨50, 1 / 1000, TestResult.FAIL⟩ ⟨70, 30, TestResult.FAIL⟩
        ⟨25, "3-5x", TestResult.FAIL⟩ ≤ 1 :=
  scorer_deterministic_C7 ⟨50, 1 / 1000, TestResult.FAIL⟩
    ⟨50, 1 / 1000, TestResult.FAIL⟩ ⟨70, 30, TestResult.FAIL⟩
    ⟨70, 30, TestResult.FAIL⟩ ⟨25, "3-5x", TestResult.FAIL⟩
    ⟨25, "3-5x", TestResult.FAIL⟩ rfl rfl rfl

/-- C8: a fault while acquiring the ticker or order book is caught and
surfaced as result `ERROR` with ratio 0 (the embedded test is total, so no
fault propagates). -/
theorem volume_depth_error_C8 (e : String) :
    volume_depth_ratio_test (Except.error e) = ⟨0, "3-5x", TestResult.ERROR⟩ := rfl

/-- C9: with a credibility score present the correlator returns exactly
`-1 * (probability - (1 - credibility))`, which lies in [-1, 1] whenever
both inputs lie in [0, 1]; with the score absent it returns nothing. -/
theorem correlator_C9 (p c : ℚ) :
    calculate_score_correlation p (some c) = some (-1 * (p - (1 - c))) ∧
    (0 ≤ p ∧ p ≤ 1 ∧ 0 ≤ c ∧ c ≤ 1 →
      -1 ≤ -1 * (p - (1 - c)) ∧ -1 * (p - (1 - c)) ≤ 1) ∧
    calculate_score_correlation p none = none := by
  refine ⟨rfl, ?_, rfl⟩
  rintro ⟨h1, h2, h3, h4⟩
  constructor <;> linarith

/-- C10: in exact arithmetic the uncapped score is k/10 for some k ≤ 10, so
the cap never alters the value and the returned probability is one of the
eleven multiples of 0.1 in [0, 1]. -/
theorem scorer_tenths_C10 (b : DigitOutcome) (s : SymmetryOutcome)
    (v : VolumeDepthOutcome) :
    ∃ k : ℕ, k ≤ 10 ∧ manipulation_score b s v = (k : ℚ) / 10 ∧
      calculate_manipulation_probability b s v = manipulation_score b s v := by
  obtain ⟨j1, hj1, e1⟩ := benford_component_tenths b
  obtain ⟨j2, hj2, e2⟩ := symmetry_component_tenths s
  obtain ⟨j3, hj3, e3⟩ := volume_component_tenths v
  refine ⟨j1 + j2 + j3, by omega, ?_,
    min_eq_left (score_le_one b s v)⟩
  unfold manipulation_score
  rw [e1, e2, e3]
  push_cast
  ring

/-- C2: the volume/depth test returns `INSUFFICIENT_DATA` with ratio 0
whenever the total depth is 0, regardless of volume; otherwise it reports
`ratio = volume_24h / total_depth` and classifies `PASS` for ratio ≤ 10,
`WARNING` for 10 < ratio ≤ 20 and `FAIL` for ratio > 20 — in particular
ratio 10.00 gives `PASS`, 10.01 `WARNING`, 20.00 `WARNING`, 20.01 `FAIL`. -/
theorem volume_depth_classification_C2 (ticker : TickerSnapshot)
    (book : OrderBookSnapshot) :
    (total_depth book = 0 →
      volume_depth_ratio_test (Except.ok (ticker, book)) =
        ⟨0, "3-5x", TestResult.INSUFFICIENT_DATA⟩) ∧
    (total_depth book ≠ 0 →
      (volume_depth_ratio_test (Except.ok (ticker, book))).ratio =
          ticker.quoteVolume / total_depth book ∧
      (ticker.quoteVolume / total_depth book ≤ 10 →
        (volume_depth_ratio_test (Except.ok (ticker, book))).result =
          TestResult.PASS) ∧
      (10 < ticker.quoteVolume / total_depth book →
        ticker.quoteVolume / total_depth book ≤ 20 →
        (volume_depth_ratio_test (Except.ok (ticker, book))).result =
          TestResult.WARNING) ∧
      (20 < ticker.quoteVolume / total_depth book →
        (volume_depth_ratio_test (Except.ok (ticker, book))).result =
          TestResult.FAIL)) ∧
    (volume_depth_ratio_test (Except.ok (⟨10⟩, ⟨[(1, 1)], []⟩))).result =
      TestResult.PASS ∧
    (volume_depth_ratio_test (Except.ok (⟨1001 / 100⟩, ⟨[(1, 1)], []⟩))).result =
      TestResult.WARNING ∧
    (volume_depth_ratio_test (Except.ok (⟨20⟩, ⟨[(1, 1)], []⟩))).result =
      TestResult.WARNING ∧
    (volume_depth_ratio_test (Except.ok (⟨2001 / 100⟩, ⟨[(1, 1)], []⟩))).result =
      TestResult.FAIL := by
  refine ⟨?_, ?_, by norm_num [volume_depth_ratio_test, total_depth],
    by norm_num [volume_depth_ratio_test, total_depth],
    by norm_num [volume_depth_ratio_test, total_depth],
    by norm_num [volume_depth_ratio_test, total_depth]⟩
  · intro h
    simp [volume_depth_ratio_test, h]
  · intro h
    have hval : volume_depth_ratio_test (Except.ok (ticker, book)) =
        ⟨ticker.quoteVolume / total_depth book, "3-5x",
          if ticker.quoteVolume / total_depth book < 3 then TestResult.PASS
          else if 3 ≤ ticker.quoteVolume / total_depth book ∧
              ticker.quoteVolume / total_depth book ≤ 10 then TestResult.PASS
          else if 10 < ticker.quoteVolume / total_depth book ∧
              ticker.quoteVolume / total_depth book ≤ 20 then TestResult.WARNING
          else TestResult.FAIL⟩ := by
      simp only [volume_depth_ratio_test]
      rw [if_neg h]
    rw [hval]
    refine ⟨rfl, ?_, ?_, ?_⟩
    · intro h10
      simp only
      split_ifs with h1 h2
      · rfl
      · rfl
      · exact absurd ⟨not_lt.mp h1, h10⟩ h2
      · exact absurd ⟨not_lt.mp h1, h10⟩ h2
    · intro ha hb2
      simp only
      split_ifs with h1 h2 h3
      · exact absurd h1 (by linarith)
      · exact absurd h2.2 (by linarith)
      · rfl
      · exact absurd ⟨ha, hb2⟩ h3
    · intro h20
      simp only
      split_ifs with h1 h2 h3
      · exact absurd h1 (by linarith)
      · exact absurd h2.2 (by linarith)
      · exact absurd h3.2 (by linarith)
      · rfl

/-- C4: the symmetry test ignores trades whose side is neither buy nor sell
(prepending an unknown-side trade changes nothing), returns
`INSUFFICIENT_DATA` when there are no buy or sell trades, and otherwise
reports `buy_pct = 100 * buys/(buys+sells)` and `sell_pct = 100 - buy_pct`
and passes exactly when both percentages lie in [45, 55], failing
otherwise. -/
theorem symmetry_test_C4 (trades : List Trade) :
    (∀ t ts, t.side = Side.unknown →
      buy_sell_symmetry_test (t :: ts) = buy_sell_symmetry_test ts) ∧
    (buy_count trades + sell_count trades = 0 →
      buy_sell_symmetry_test trades = ⟨0, 0, TestResult.INSUFFICIENT_DATA⟩) ∧
    (buy_count trades + sell_count trades ≠ 0 →
      (buy_sell_symmetry_test trades).buy_pct =
          100 * (buy_count trades : ℚ) /
            ((buy_count trades : ℚ) + (sell_count trades : ℚ)) ∧
      (buy_sell_symmetry_test trades).sell_pct =
          100 - (buy_sell_symmetry_test trades).buy_pct ∧
      ((buy_sell_symmetry_test trades).result = TestResult.PASS ↔
        (45 ≤ (buy_sell_symmetry_test trades).buy_pct ∧
          (buy_sell_symmetry_test trades).buy_pct ≤ 55 ∧
          45 ≤ (buy_sell_symmetry_test trades).sell_pct ∧
          (buy_sell_symmetry_test trades).sell_pct ≤ 55)) ∧
      ((buy_sell_symmetry_test trades).result = TestResult.PASS ∨
        (buy_sell_symmetry_test trades).result = TestResult.FAIL)) := by
  refine ⟨?_, ?_, ?_⟩
  · intro t ts h
    simp [buy_sell_symmetry_test, buy_count, sell_count, List.countP_cons, h,
      show (Side.unknown == Side.buy) = false from rfl,
      show (Side.unknown == Side.sell) = false from rfl]
  · intro h
    simp [buy_sell_symmetry_test, h]
  · intro h
    have htotQ : ((buy_count trades : ℚ) + (sell_count trades : ℚ)) ≠ 0 := by
      rw [← Nat.cast_add]
      exact Nat.cast_ne_zero.mpr h
    have hval : buy_sell_symmetry_test trades =
        ⟨(buy_count trades : ℚ) /
            ((buy_count trades : ℚ) + (sell_count trades : ℚ)) * 100,
          (sell_count trades : ℚ) /
            ((buy_count trades : ℚ) + (sell_count trades : ℚ)) * 100,
          if 45 ≤ (buy_count trades : ℚ) /
                ((buy_count trades : ℚ) + (sell_count trades : ℚ)) * 100 ∧
              (buy_count trades : ℚ) /
                ((buy_count trades : ℚ) + (sell_count trades : ℚ)) * 100 ≤ 55 ∧
              45 ≤ (sell_count trades : ℚ) /
                ((buy_count trades : ℚ) + (sell_count trades : ℚ)) * 100 ∧
              (sell_count trades : ℚ) /
                ((buy_count trades : ℚ) + (sell_count trades : ℚ)) * 100 ≤ 55 then
            TestResult.PASS
          else TestResult.FAIL⟩ := by
      simp only [buy_sell_symmetry_test]
      rw [if_neg h]
    rw [hval]
    refine ⟨by ring, ?_, ?_, ?_⟩
    · simp only
      field_simp
      ring
    · simp only
      split_ifs with hc
      · simp [hc]
      · simp [hc]
    · simp only
      split_ifs with hc
      · exact Or.inl rfl
      · exact Or.inr rfl

/-- C5: whenever no trade has a strictly positive amount whose leading
significant digit lies in 1–9 (in particular for the empty trade set), the
digit test returns `INSUFFICIENT_DATA` with statistic 0 and p-value 1,
whatever the chi-squared routine would compute. -/
theorem benford_insufficient_C5 (chisquare : List ℕ → ℚ × ℚ)
    (trades : List Trade)
    (h : ∀ t ∈ trades, ¬(0 < t.amount ∧ 1 ≤ leadingDigit t.amount ∧
      leadingDigit t.amount ≤ 9)) :
    benford_law_test chisquare trades = ⟨0, 1, TestResult.INSUFFICIENT_DATA⟩ := by
  have hnil : firstDigits trades = [] := by
    rw [firstDigits, List.filter_eq_nil_iff]
    intro d hd
    simp only [List.mem_map, List.mem_filter, decide_eq_true_eq] at hd
    obtain ⟨amt, ⟨⟨t, ht, rfl⟩, hpos⟩, rfl⟩ := hd
    simp only [Bool.and_eq_true, decide_eq_true_eq, not_and]
    intro h1 h9
    exact h t ht ⟨hpos, h1, h9⟩
  simp [benford_law_test, hnil]

/-- Witness for C5: a trade set holding one negative-amount and one
zero-amount trade. -/
theorem benford_insufficient_C5_witness :
    benford_law_test (fun _ => (0, 0)) [⟨-1, Side.buy, 0⟩, ⟨0, Side.sell, 0⟩] =
      ⟨0, 1, TestResult.INSUFFICIENT_DATA⟩ :=
  benford_insufficient_C5 (fun _ => (0, 0)) [⟨-1, Side.buy, 0⟩, ⟨0, Side.sell, 0⟩]
    (by
      intro t ht
      simp only [List.mem_cons, List.mem_singleton] at ht
      rcases ht with rfl | rfl | h
      · norm_num
      · norm_num
      · exact absurd h (List.not_mem_nil _))

/-- C6: the digit extraction is total and discards silently — prepending a
trade with non-positive amount leaves the extracted digits unchanged, every
digit that reaches the frequency count lies in 1–9 (so digit 0 never enters
the chi-squared input), and the embedded test always resolves to one of
`PASS`, `FAIL`, `INSUFFICIENT_DATA` rather than faulting. -/
theorem benford_extraction_safe_C6 (chisquare : List ℕ → ℚ × ℚ)
    (trades : List Trade) :
    (∀ d ∈ firstDigits trades, 1 ≤ d ∧ d ≤ 9) ∧
    (∀ t ts, t.amount ≤ 0 → firstDigits (t :: ts) = firstDigits ts) ∧
    ((benford_law_test chisquare trades).result = TestResult.PASS ∨
      (benford_law_test chisquare trades).result = TestResult.FAIL ∨
      (benford_law_test chisquare trades).result = TestResult.INSUFFICIENT_DATA) := by
  refine ⟨?_, ?_, ?_⟩
  · intro d hd
    rw [firstDigits] at hd
    have hp := List.of_mem_filter hd
    simpa using hp
  · intro t ts ht
    have hneg : ¬(0 < t.amount) := not_lt.mpr ht
    simp [firstDigits, List.filter_cons, hneg]
  · rw [benford_law_test]
    split_ifs with h1
    · simp
    · simp only
      rcases lt_or_le (chisquare ((List.range' 1 9).map
          fun d => (firstDigits trades).count d)).2 (1 / 20) with hp | hp
      · rw [if_pos hp]
        simp
      · rw [if_neg (not_lt.mpr hp)]
        simp
